import Mathlib

/-!
Verification of the SAP-IT connection launcher (Rust) against its
natural-language specification.

The development shallowly embeds the connection-lifecycle orchestrator
(`src/connection.rs`), the config data model (`src/config.rs`), the Unix
platform layer (`src/platform/unix.rs`) and the interactive controller
(`src/tui/app.rs`) as pure Lean functions.  External platform operations
(spawning the VPN client, ping, RDP, SSH) are inputs: a `Platform` record of
pure result functions.  Real time is virtualised: only `sleep` calls advance
time, and the elapsed time of a run is the sum of its recorded sleeps.  Every
externally visible platform invocation is recorded in an event trace, so that
the specification's call-sequence properties become statements about traces.
-/

namespace SapIt

/-! ## Data model (config.rs) -/

/-- `Settings` from config.rs: vpn_timeout_secs (u64), ping_timeout_ms (u32),
ping_retries (u32); machine integers are embedded as `Nat` (all uses in the
program stay within range except the backoff shift, which is modelled
explicitly below). -/
structure Settings where
  vpn_timeout_secs : Nat
  ping_timeout_ms : Nat
  ping_retries : Nat
deriving Repr, DecidableEq

/-- `Server` from config.rs: `ssh` is `Option<String>`, empty or absent means
no SSH capability. -/
structure Server where
  name : String
  ssh : Option String
  rdp : String
  vpn : String
deriving Repr, DecidableEq

/-- `Server::has_ssh` from config.rs. -/
def Server.has_ssh (sv : Server) : Bool :=
  (sv.ssh.map (fun s => !s.isEmpty)).getD false

/-- `Server::ssh_string` from config.rs: the SSH string when present and
non-empty. -/
def Server.ssh_string (sv : Server) : Option String :=
  (sv.ssh.filter (fun s => !s.isEmpty))

/-- Rust `str::split` with a single-character pattern, on the character list
of the string: splits at every occurrence of `sep`; n separators yield n+1
pieces (empty pieces included), and a string with no separator yields the
one-element list holding the whole string.  This mirrors the iterator
`ssh.split('@')` used by `Server::ssh_ip`. -/
def splitChar (sep : Char) : List Char → List (List Char)
  | [] => [[]]
  | c :: rest =>
    if c = sep then [] :: splitChar sep rest
    else
      match splitChar sep rest with
      | [] => [[c]]
      | g :: gs => (c :: g) :: gs

/-- `Server::ssh_ip` from config.rs: `ssh.split('@').nth(1)` — the second
'@'-separated component of the SSH string, when it exists. -/
def Server.ssh_ip (sv : Server) : Option String :=
  sv.ssh_string.bind (fun ssh => ((splitChar '@' ssh.data).get? 1).map (fun l => String.mk l))

/-! ## Connection orchestrator (connection.rs) -/

/-- `ConnectionType` from connection.rs. -/
inductive ConnectionType where
  | rdp
  | ssh
  | both
deriving Repr, DecidableEq

/-- One externally visible platform invocation (or sleep) performed by the
orchestrator.  Traces of these events embed the call sequences the
specification talks about. -/
inductive Event where
  | evConnectVPN (name : String)
  | evDisconnectVPN (name : String)
  | evPing (host : String) (timeoutMs : Nat)
  | evSleepSecs (secs : Nat)
  | evLaunchRDP (address : String)
  | evLaunchSSH (target : String)
  | evRdpWait
deriving Repr, DecidableEq

/-- The pure embedding of the platform operation results
(`platform::connect_vpn`, `disconnect_vpn`, `ping_host`, `start_rdp`,
`start_ssh`).  A `Platform` value fixes what every call would return; the RDP
child handle is abstracted to `Unit`. -/
structure Platform where
  connectVPN : String → Except String Unit
  disconnectVPN : String → Except String Unit
  pingHost : String → Nat → Bool
  startRDP : String → Except String Unit
  startSSH : String → Except String Unit

/-- Mutable run state of one `ConnectionManager`: the recorded event trace,
the `vpn_connected` atomic flag, and how many times the shared shutdown flag
has been loaded so far (the load index lets the environment's shutdown flag
change between checks, as the real atomic can). -/
structure St where
  events : List Event
  vpnConnected : Bool
  checks : Nat
deriving Repr, DecidableEq

/-- The state of a freshly constructed `ConnectionManager`
(`ConnectionManager::new`: `vpn_connected = false`, nothing invoked yet). -/
def initSt : St := { events := [], vpnConnected := false, checks := 0 }

/-- Record one platform invocation in the trace. -/
def emit (s : St) (e : Event) : St := { s with events := s.events ++ [e] }

/-- The environment of one `ConnectionManager`: its server, settings, the
platform behaviour, and the value of the shared shutdown flag at its k-th
load. -/
structure Env where
  server : Server
  settings : Settings
  plat : Platform
  shutdown : Nat → Bool

/-- One `self.shutdown_flag.load(..)`. -/
def Env.loadShutdown (env : Env) (s : St) : Bool × St :=
  (env.shutdown s.checks, { s with checks := s.checks + 1 })

/-- The error outcomes of `ConnectionManager` operations, one constructor per
`bail!`/`?` site in connection.rs.  `shutdownRequested` and
`shutdownDuringVpnWait` are the Cancelled outcomes; `sshNotAvailable` and
`sshIpExtractFailed` are the ConfigError outcomes; `panicOverflow` models the
arithmetic-overflow abort of the u64 backoff shift `1 << (attempt - 1)` when
the shift amount reaches 64. -/
inductive ConnError where
  | shutdownRequested
  | shutdownDuringVpnWait
  | vpnConnectFailed (msg : String)
  | rdpLaunchFailed (msg : String)
  | sshNotAvailable
  | sshIpExtractFailed
  | sshLaunchFailed (msg : String)
  | panicOverflow
deriving Repr, DecidableEq

namespace ConnectionManager

/-- The polling loop of `ConnectionManager::wait_for_vpn_connection`.
`remaining` is `timeout.saturating_sub(start.elapsed())` in whole seconds;
in the virtual-time model only sleeps advance the clock, so `remaining` is
the loop variable: the `while start.elapsed() < timeout` condition is
`remaining ≠ 0`, a 2s poll sleep decreases it by 2, and the final short sleep
sets it to 0.  Running out of the timeout is the source's warn-and-Ok path. -/
def wait_loop (env : Env) (remaining : Nat) (s : St) : Except ConnError Unit × St :=
  if remaining = 0 then (.ok (), s)
  else
    let (sd, s1) := env.loadShutdown s
    if sd then (.error .shutdownDuringVpnWait, s1)
    else
      let s2 := emit s1 (.evPing env.server.rdp env.settings.ping_timeout_ms)
      if env.plat.pingHost env.server.rdp env.settings.ping_timeout_ms then (.ok (), s2)
      else if 2 < remaining then
        wait_loop env (remaining - 2) (emit s2 (.evSleepSecs 2))
      else
        wait_loop env 0 (emit s2 (.evSleepSecs remaining))
termination_by remaining
decreasing_by all_goals omega

/-- `ConnectionManager::wait_for_vpn_connection`: poll connectivity to the
RDP host every 2s until ping succeeds, the timeout elapses (proceed anyway),
or shutdown is observed. -/
def wait_for_vpn_connection (env : Env) (s : St) : Except ConnError Unit × St :=
  wait_loop env env.settings.vpn_timeout_secs s

/-- `ConnectionManager::connect_vpn`: bail on shutdown, invoke the platform
VPN connect (propagating its error with `?`), set `vpn_connected`, then wait
for the VPN to establish. -/
def connect_vpn (env : Env) (s : St) : Except ConnError Unit × St :=
  let (sd, s1) := env.loadShutdown s
  if sd then (.error .shutdownRequested, s1)
  else
    let s2 := emit s1 (.evConnectVPN env.server.vpn)
    match env.plat.connectVPN env.server.vpn with
    | .error msg => (.error (.vpnConnectFailed msg), s2)
    | .ok _ => wait_for_vpn_connection env { s2 with vpnConnected := true }

/-- The `for attempt in 1..=ping_retries` loop of
`ConnectionManager::check_host_reachable`.  `remaining` counts the loop
iterations left (`ping_retries + 1 - attempt`), so the recursion is
structural; the conditions inside the body are exactly the source's, phrased
on `attempt`.  The backoff `Duration::from_secs(1 << (attempt - 1))` shifts a
u64 by `attempt - 1`; a shift amount of 64 or more is an arithmetic overflow
(a panic under Rust's checked arithmetic), modelled as the `panicOverflow`
outcome. -/
def ping_loop (env : Env) (host : String) (attempt : Nat) :
    Nat → St → Except ConnError Bool × St
  | 0, s => (.ok false, s)
  | r + 1, s =>
    let (sd, s1) := env.loadShutdown s
    if sd then (.ok false, s1)
    else
      let s2 := emit s1 (.evPing host env.settings.ping_timeout_ms)
      if env.plat.pingHost host env.settings.ping_timeout_ms then (.ok true, s2)
      else if attempt < env.settings.ping_retries then
        if 64 ≤ attempt - 1 then (.error .panicOverflow, s2)
        else ping_loop env host (attempt + 1) r (emit s2 (.evSleepSecs (1 <<< (attempt - 1))))
      else ping_loop env host (attempt + 1) r s2

/-- `ConnectionManager::check_host_reachable`: up to `ping_retries` attempts
starting at attempt 1. -/
def check_host_reachable (env : Env) (host : String) (s : St) :
    Except ConnError Bool × St :=
  ping_loop env host 1 env.settings.ping_retries s

/-- `ConnectionManager::disconnect_vpn`: invoke the platform disconnect only
when `vpn_connected` is set, swallow its error after logging, and clear the
flag. -/
def disconnect_vpn (env : Env) (s : St) : St :=
  if s.vpnConnected then
    { emit s (.evDisconnectVPN env.server.vpn) with vpnConnected := false }
  else s

/-- `ConnectionManager::start_rdp`: skip on shutdown, skip (Ok None) when the
RDP host is unreachable, otherwise launch the RDP client and return its
handle (`some ()`), propagating a spawn failure. -/
def start_rdp (env : Env) (s : St) : Except ConnError (Option Unit) × St :=
  let (sd, s1) := env.loadShutdown s
  if sd then (.ok none, s1)
  else
    match check_host_reachable env env.server.rdp s1 with
    | (.error e, s2) => (.error e, s2)
    | (.ok false, s2) => (.ok none, s2)
    | (.ok true, s2) =>
      let s3 := emit s2 (.evLaunchRDP env.server.rdp)
      match env.plat.startRDP env.server.rdp with
      | .error msg => (.error (.rdpLaunchFailed msg), s3)
      | .ok _ => (.ok (some ()), s3)

/-- `ConnectionManager::start_ssh`: skip on shutdown, fail (ConfigError) when
the server has no usable SSH string or no host part can be extracted, skip
when the SSH host is unreachable, otherwise launch SSH (blocking),
propagating a spawn failure. -/
def start_ssh (env : Env) (s : St) : Except ConnError Unit × St :=
  let (sd, s1) := env.loadShutdown s
  if sd then (.ok (), s1)
  else
    match env.server.ssh_string with
    | none => (.error .sshNotAvailable, s1)
    | some sshStr =>
      match env.server.ssh_ip with
      | none => (.error .sshIpExtractFailed, s1)
      | some sshIp =>
        match check_host_reachable env sshIp s1 with
        | (.error e, s2) => (.error e, s2)
        | (.ok false, s2) => (.ok (), s2)
        | (.ok true, s2) =>
          let s3 := emit s2 (.evLaunchSSH sshStr)
          match env.plat.startSSH sshStr with
          | .error msg => (.error (.sshLaunchFailed msg), s3)
          | .ok _ => (.ok (), s3)

/-- `ConnectionManager::connect`: VPN first, then dispatch on the connection
type; in Both mode RDP is started first (non-blocking), SSH runs (blocking),
and the RDP handle is waited on last.  `evRdpWait` records `child.wait()`. -/
def connect (env : Env) (ct : ConnectionType) (s : St) : Except ConnError Unit × St :=
  match connect_vpn env s with
  | (.error e, s1) => (.error e, s1)
  | (.ok _, s1) =>
    match ct with
    | .rdp =>
      match start_rdp env s1 with
      | (.error e, s2) => (.error e, s2)
      | (.ok none, s2) => (.ok (), s2)
      | (.ok (some _), s2) => (.ok (), emit s2 .evRdpWait)
    | .ssh =>
      match start_ssh env s1 with
      | (.error e, s2) => (.error e, s2)
      | (.ok _, s2) => (.ok (), s2)
    | .both =>
      match start_rdp env s1 with
      | (.error e, s2) => (.error e, s2)
      | (.ok rdpChild, s2) =>
        match start_ssh env s2 with
        | (.error e, s3) => (.error e, s3)
        | (.ok _, s3) =>
          match rdpChild with
          | some _ => (.ok (), emit s3 .evRdpWait)
          | none => (.ok (), s3)

/-- One full `ConnectionManager` lifetime as the callers in main.rs use it:
construct (initSt), run `connect`, then drop — `impl Drop for
ConnectionManager` runs `disconnect_vpn` unconditionally (also on error
returns and during unwinding). -/
def connect_lifetime (env : Env) (ct : ConnectionType) : Except ConnError Unit × St :=
  match connect env ct initSt with
  | (r, s) => (r, disconnect_vpn env s)

end ConnectionManager

/-! ## Interactive controller (tui/app.rs)

The `App` state machine is embedded with the platform operations passed in as
a `Platform` value (the real code calls `platform::*` directly) and with the
elapsed time of `connection_start` passed as a parameter (the real code reads
an `Instant`).  Presentation-only fields (`status_log`, scroll positions) and
the shutdown flag are omitted; `log_status` calls are dropped with them. -/

/-- `Screen` from tui/app.rs. -/
inductive Screen where
  | serverList
  | connectionTypeSelect
  | connecting
  | connected
  | help
  | settings
  | editServer
  | confirm
deriving Repr, DecidableEq

/-- `ConnectionStatus` from tui/app.rs. -/
inductive ConnectionStatus where
  | idle
  | connectingVpn
  | waitingForVpn
  | checkingConnectivity
  | startingSession
  | connected
  | disconnecting
  | error (msg : String)
deriving Repr, DecidableEq

/-- `ConfirmAction` from tui/app.rs. -/
inductive ConfirmAction where
  | deleteServer (index : Nat)
  | disconnect
  | quit
deriving Repr, DecidableEq

/-- `EditServerFields` from tui/app.rs. -/
structure EditServerFields where
  name : String
  rdp : String
  ssh : String
  vpn : String
deriving Repr, DecidableEq

/-- `Config` from config.rs (servers plus settings). -/
structure Config where
  servers : List Server
  settings : Settings
deriving Repr, DecidableEq

/-- `App` from tui/app.rs.  `connection_start: Option<Instant>` is embedded
as `Option Unit` (set/unset), with the elapsed seconds supplied to
`update_connection` as an argument.  The source's `confirm_selection` field
(0 = No, 1 = Yes) is named `confirm_choice` here because the method of the
same name is also embedded. -/
structure App where
  config : Config
  screen : Screen
  prev_screen : Option Screen
  selected_server : Nat
  selected_conn_type : Nat
  connection_status : ConnectionStatus
  should_quit : Bool
  connected_server : Option Nat
  connected_vpn : Option String
  connection_start : Option Unit
  confirm_action : Option ConfirmAction
  confirm_choice : Nat
  edit_server_fields : EditServerFields
  edit_mode : Bool
  edit_field_index : Nat
  input_buffer : String
  cursor_position : Nat
deriving Repr, DecidableEq

namespace App

/-- `App::current_server`. -/
def current_server (a : App) : Option Server :=
  a.config.servers.get? a.selected_server

/-- `App::selected_connection_type`. -/
def selected_connection_type (a : App) : ConnectionType :=
  match a.selected_conn_type with
  | 0 => .rdp
  | 1 => .ssh
  | 2 => .both
  | _ => .rdp

/-- `App::go_to_screen`. -/
def go_to_screen (a : App) (scr : Screen) : App :=
  { a with prev_screen := some a.screen, screen := scr }

/-- `App::go_back`. -/
def go_back (a : App) : App :=
  match a.prev_screen with
  | some prev => { a with prev_screen := none, screen := prev }
  | none => a

/-- `App::load_field_to_input`. -/
def load_field_to_input (a : App) : App :=
  let buf :=
    match a.edit_field_index with
    | 0 => a.edit_server_fields.name
    | 1 => a.edit_server_fields.rdp
    | 2 => a.edit_server_fields.ssh
    | 3 => a.edit_server_fields.vpn
    | _ => ""
  { a with input_buffer := buf, cursor_position := buf.length }

/-- `App::save_current_field`. -/
def save_current_field (a : App) : App :=
  match a.edit_field_index with
  | 0 => { a with edit_server_fields := { a.edit_server_fields with name := a.input_buffer } }
  | 1 => { a with edit_server_fields := { a.edit_server_fields with rdp := a.input_buffer } }
  | 2 => { a with edit_server_fields := { a.edit_server_fields with ssh := a.input_buffer } }
  | 3 => { a with edit_server_fields := { a.edit_server_fields with vpn := a.input_buffer } }
  | _ => a

/-- `App::save_server`: build the server from the edit fields (an empty SSH
field is stored as `none`) and upsert it — overwrite the selected entry in
edit mode (the Rust indexed assignment, which its callers only reach with a
valid index, is embedded as `List.set`), append otherwise.  No field
validation is performed. -/
def save_server (a : App) : App :=
  let a := a.save_current_field
  let server : Server :=
    { name := a.edit_server_fields.name
      rdp := a.edit_server_fields.rdp
      ssh := if a.edit_server_fields.ssh.isEmpty then none
             else some a.edit_server_fields.ssh
      vpn := a.edit_server_fields.vpn }
  if a.edit_mode then
    { a with config := { a.config with servers := a.config.servers.set a.selected_server server } }
  else
    { a with
        config := { a.config with servers := a.config.servers ++ [server] }
        selected_server := a.config.servers.length }

/-- `App::disconnect`: best-effort platform VPN disconnect when a VPN is
recorded, then clear the session state and return to the server list. -/
def disconnect (plat : Platform) (a : App) : App :=
  let a :=
    match a.connected_vpn with
    | some vpn =>
      let _ := plat.disconnectVPN vpn
      { a with connected_vpn := none, connection_status := .disconnecting }
    | none => a
  { a with
      connected_server := none
      connection_start := none
      connection_status := .idle
      screen := .serverList }

/-- `App::start_connection`: record the pending session, switch to the
Connecting screen, start the platform VPN connect, and set the status to
WaitingForVpn (or to an error status when the connect call fails). -/
def start_connection (plat : Platform) (a : App) : App :=
  match a.current_server with
  | some server =>
    let a := { a with
        connection_status := .connectingVpn
        connection_start := some ()
        connected_vpn := some server.vpn
        connected_server := some a.selected_server }
    let a := a.go_to_screen .connecting
    match plat.connectVPN server.vpn with
    | .error e => { a with connection_status := .error ("VPN error: " ++ e) }
    | .ok _ => { a with connection_status := .waitingForVpn }
  | none => a

/-- `App::confirm_selection` (the Enter handler). -/
def confirm_selection (plat : Platform) (a : App) : App :=
  match a.screen with
  | .serverList =>
    match a.current_server with
    | some server =>
      if server.has_ssh then
        ({ a with selected_conn_type := 0 }).go_to_screen .connectionTypeSelect
      else
        start_connection plat { a with selected_conn_type := 0 }
    | none => a
  | .connectionTypeSelect => start_connection plat a
  | .confirm =>
    let a :=
      if a.confirm_choice = 1 then
        match a.confirm_action with
        | some (.deleteServer index) =>
          let a := { a with
              confirm_action := none
              config := { a.config with servers := a.config.servers.eraseIdx index } }
          if a.selected_server ≥ a.config.servers.length ∧ a.selected_server > 0 then
            { a with selected_server := a.selected_server - 1 }
          else a
        | some .disconnect => disconnect plat { a with confirm_action := none }
        | some .quit =>
          let a := disconnect plat { a with confirm_action := none }
          { a with should_quit := true }
        | none => a
      else a
    ({ a with confirm_action := none }).go_back
  | .editServer =>
    let a := a.save_current_field
    if a.edit_field_index < 3 then
      ({ a with edit_field_index := a.edit_field_index + 1 }).load_field_to_input
    else
      (a.save_server).go_to_screen .serverList
  | .connected =>
    ({ a with confirm_action := some .disconnect, confirm_choice := 0 }).go_to_screen .confirm
  | _ => a

/-- `App::update_connection` (the periodic tick): in WaitingForVpn, ping the
RDP host; on success advance to StartingSession, otherwise flag a
"VPN connection timeout" error status once the elapsed time exceeds the VPN
timeout.  In StartingSession, launch the requested clients (RDP failures are
only logged) and move to the Connected screen.  `elapsedSecs` is
`connection_start.elapsed()` in whole seconds. -/
def update_connection (plat : Platform) (elapsedSecs : Nat) (a : App) : App :=
  match a.connection_status with
  | .waitingForVpn =>
    match a.current_server with
    | some server =>
      if plat.pingHost server.rdp a.config.settings.ping_timeout_ms then
        { a with connection_status := .startingSession }
      else
        match a.connection_start with
        | some _ =>
          if elapsedSecs > a.config.settings.vpn_timeout_secs then
            { a with connection_status := .error "VPN connection timeout" }
          else a
        | none => a
    | none => a
  | .startingSession =>
    match a.current_server with
    | some server =>
      let connType := a.selected_connection_type
      let _ :=
        match connType with
        | .rdp | .both => some (plat.startRDP server.rdp)
        | .ssh => none
      { a with connection_status := .connected, screen := .connected }
    | none => a
  | _ => a

end App

/-! ## Trace observations -/

/-- Number of trace events satisfying `p`. -/
def countP (p : Event → Bool) (evs : List Event) : Nat := (evs.filter p).length

/-- Is the event a platform `connect_vpn` invocation? -/
def Event.isConnect : Event → Bool
  | .evConnectVPN _ => true
  | _ => false

/-- Is the event a platform `disconnect_vpn` invocation? -/
def Event.isDisconnect : Event → Bool
  | .evDisconnectVPN _ => true
  | _ => false

/-- Is the event a platform `start_rdp` invocation? -/
def Event.isLaunchRdp : Event → Bool
  | .evLaunchRDP _ => true
  | _ => false

/-- Is the event a platform `start_ssh` invocation? -/
def Event.isLaunchSsh : Event → Bool
  | .evLaunchSSH _ => true
  | _ => false

/-- Is the event a platform `ping_host` invocation? -/
def Event.isPing : Event → Bool
  | .evPing _ _ => true
  | _ => false

/-- Seconds slept by one event. -/
def Event.sleepSecs : Event → Nat
  | .evSleepSecs n => n
  | _ => 0

/-- Total seconds slept along a trace: the virtual elapsed time of a run. -/
def totalSleep (evs : List Event) : Nat := (evs.map Event.sleepSecs).sum

/-! ## Unix platform layer (platform/unix.rs) -/

/-- `unix::connect_vpn` from platform/unix.rs, as a function of the outcome
of the spawned `nmcli connection up` command (`.ok success?` when the command
ran, `.error` when it could not be spawned): every arm logs and returns Ok —
the Unix platform layer never reports a VPN-connect failure to the
orchestrator. -/
def unix_connect_vpn (nmcli_result : Except String Bool) : Except String Unit :=
  match nmcli_result with
  | .ok true => .ok ()
  | .ok false => .ok ()
  | .error _ => .ok ()

/-- A trace fragment made only of reachability pings of one host and
sleeps. -/
def pingSleepOnly (host : String) (tmo : Nat) (evs : List Event) : Prop :=
  ∀ e ∈ evs, e = Event.evPing host tmo ∨ ∃ n, e = Event.evSleepSecs n

/-- A trace fragment with no VPN connect and no VPN disconnect events: what
the reachability and session phases may emit. -/
def sessionOnly (evs : List Event) : Prop :=
  ∀ e ∈ evs, e.isConnect = false ∧ e.isDisconnect = false

/-! ## Concrete fixtures

Closed servers, settings, platform behaviours and controller states used by
the concrete runs below. -/

/-- A server without SSH capability. -/
def srvNoSsh : Server := { name := "A", ssh := none, rdp := "10.0.0.1", vpn := "A-VPN" }

/-- A server with a well-formed SSH target. -/
def srvSsh : Server :=
  { name := "A", ssh := some "user@10.0.0.2", rdp := "10.0.0.1", vpn := "A-VPN" }

/-- A server whose SSH target has no '@'. -/
def srvBadSsh : Server :=
  { name := "B", ssh := some "nouser-no-at-sign", rdp := "10.0.0.1", vpn := "B-VPN" }

/-- The default settings block of config.rs. -/
def stdSettings : Settings :=
  { vpn_timeout_secs := 30, ping_timeout_ms := 3000, ping_retries := 3 }

/-- Every platform call succeeds; every host answers pings. -/
def platTrue : Platform :=
  { connectVPN := fun _ => .ok ()
    disconnectVPN := fun _ => .ok ()
    pingHost := fun _ _ => true
    startRDP := fun _ => .ok ()
    startSSH := fun _ => .ok () }

/-- Every platform call succeeds but no host ever answers a ping. -/
def platFalse : Platform :=
  { platTrue with pingHost := fun _ _ => false }

/-- The VPN connect command itself fails to run. -/
def platConnErr : Platform :=
  { platTrue with connectVPN := fun _ => .error "boom" }

/-- Only the SSH host 10.0.0.2 answers pings. -/
def platSshOnly : Platform :=
  { platTrue with pingHost := fun h _ => h == "10.0.0.2" }

/-- Cancellation already signalled before the attempt starts. -/
def envShutdownSet : Env :=
  { server := srvSsh, settings := stdSettings, plat := platTrue, shutdown := fun _ => true }

/-- VPN connect call fails; no cancellation. -/
def envConnErr : Env :=
  { server := srvNoSsh, settings := stdSettings, plat := platConnErr, shutdown := fun _ => false }

/-- No host answers; no cancellation. -/
def envPingFalse : Env :=
  { server := srvNoSsh, settings := stdSettings, plat := platFalse, shutdown := fun _ => false }

/-- RDP host unreachable, SSH host reachable; no cancellation. -/
def envBoth : Env :=
  { server := srvSsh, settings := stdSettings, plat := platSshOnly, shutdown := fun _ => false }

/-- Malformed SSH target, everything reachable; no cancellation. -/
def envBadSsh : Env :=
  { server := srvBadSsh, settings := stdSettings, plat := platTrue, shutdown := fun _ => false }

/-- 66 configured ping retries: enough iterations for the backoff shift to
reach 64 bits. -/
def env66 : Env :=
  { server := srvNoSsh
    settings := { vpn_timeout_secs := 30, ping_timeout_ms := 3000, ping_retries := 66 }
    plat := platFalse
    shutdown := fun _ => false }

/-- A controller state sitting in the Connecting screen waiting for the VPN,
with a session started for `srvNoSsh`. -/
def appWait : App :=
  { config := { servers := [srvNoSsh], settings := stdSettings }
    screen := .connecting
    prev_screen := some .serverList
    selected_server := 0
    selected_conn_type := 0
    connection_status := .waitingForVpn
    should_quit := false
    connected_server := some 0
    connected_vpn := some "A-VPN"
    connection_start := some ()
    confirm_action := none
    confirm_choice := 0
    edit_server_fields := { name := "", rdp := "", ssh := "", vpn := "" }
    edit_mode := false
    edit_field_index := 0
    input_buffer := ""
    cursor_position := 0 }

/-- A controller state on the last EditServer field with every field empty,
in add mode, over an empty catalog. -/
def appEditEmpty : App :=
  { config := { servers := [], settings := stdSettings }
    screen := .editServer
    prev_screen := some .serverList
    selected_server := 0
    selected_conn_type := 0
    connection_status := .idle
    should_quit := false
    connected_server := none
    connected_vpn := none
    connection_start := none
    confirm_action := none
    confirm_choice := 0
    edit_server_fields := { name := "", rdp := "", ssh := "", vpn := "" }
    edit_mode := false
    edit_field_index := 3
    input_buffer := ""
    cursor_position := 0 }

/-! ## Trace lemmas -/

theorem countP_append (p : Event → Bool) (l1 l2 : List Event) :
    countP p (l1 ++ l2) = countP p l1 + countP p l2 := by
  simp [countP, List.filter_append]

theorem countP_eq_zero {p : Event → Bool} {l : List Event}
    (h : ∀ e ∈ l, p e = false) : countP p l = 0 := by
  simp only [countP, List.length_eq_zero, List.filter_eq_nil_iff]
  intro a ha
  simp [h a ha]

theorem countP_singleton (p : Event → Bool) (e : Event) :
    countP p [e] = if p e then 1 else 0 := by
  by_cases h : p e <;> simp [countP, h]

theorem sessionOnly_nil : sessionOnly [] := by simp [sessionOnly]

theorem sessionOnly_append {l1 l2 : List Event}
    (h1 : sessionOnly l1) (h2 : sessionOnly l2) : sessionOnly (l1 ++ l2) := by
  intro e he
  rcases List.mem_append.mp he with h | h
  · exact h1 e h
  · exact h2 e h

theorem sessionOnly_of_pingSleepOnly {host : String} {tmo : Nat} {evs : List Event}
    (h : pingSleepOnly host tmo evs) : sessionOnly evs := by
  intro e he
  rcases h e he with rfl | ⟨n, rfl⟩ <;> simp [Event.isConnect, Event.isDisconnect]

namespace ConnectionManager

/-- The retry loop only emits pings of its host and backoff sleeps, and never
touches the `vpn_connected` flag. -/
theorem ping_loop_frame (env : Env) (host : String) :
    ∀ (remaining attempt : Nat) (s : St), ∃ tail,
      (ping_loop env host attempt remaining s).2.events = s.events ++ tail ∧
      (ping_loop env host attempt remaining s).2.vpnConnected = s.vpnConnected ∧
      pingSleepOnly host env.settings.ping_timeout_ms tail := by
  intro remaining
  induction remaining with
  | zero =>
    intro attempt s
    exact ⟨[], by simp [ping_loop], by simp [ping_loop], by simp [pingSleepOnly]⟩
  | succ r ih =>
    intro attempt s
    simp only [ping_loop, Env.loadShutdown]
    cases hsd : env.shutdown s.checks with
    | true => exact ⟨[], by simp, by simp, by simp [pingSleepOnly]⟩
    | false =>
      simp only [Bool.false_eq_true, if_false, emit]
      cases hping : env.plat.pingHost host env.settings.ping_timeout_ms with
      | true =>
        refine ⟨[Event.evPing host env.settings.ping_timeout_ms], by simp, by simp, ?_⟩
        intro e he
        simp at he
        exact Or.inl he
      | false =>
        simp only [Bool.false_eq_true, if_false]
        by_cases hlt : attempt < env.settings.ping_retries
        · simp only [hlt, if_true]
          by_cases hov : 64 ≤ attempt - 1
          · refine ⟨[Event.evPing host env.settings.ping_timeout_ms], ?_, ?_, ?_⟩
            · simp [hov]
            · simp [hov]
            · intro e he
              simp at he
              exact Or.inl he
          · simp only [hov, if_false]
            obtain ⟨tail, h1, h2, h3⟩ :=
              ih (attempt + 1)
                { events :=
                    (s.events ++ [Event.evPing host env.settings.ping_timeout_ms]) ++
                      [Event.evSleepSecs (1 <<< (attempt - 1))]
                  vpnConnected := s.vpnConnected
                  checks := s.checks + 1 }
            refine ⟨Event.evPing host env.settings.ping_timeout_ms ::
                Event.evSleepSecs (1 <<< (attempt - 1)) :: tail, ?_, ?_, ?_⟩
            · rw [h1]; simp
            · rw [h2]
            · intro e he
              rcases List.mem_cons.mp he with rfl | he
              · exact Or.inl rfl
              rcases List.mem_cons.mp he with rfl | he
              · exact Or.inr ⟨_, rfl⟩
              · exact h3 e he
        · simp only [hlt, if_false]
          obtain ⟨tail, h1, h2, h3⟩ :=
            ih (attempt + 1)
              { events := s.events ++ [Event.evPing host env.settings.ping_timeout_ms]
                vpnConnected := s.vpnConnected
                checks := s.checks + 1 }
          refine ⟨Event.evPing host env.settings.ping_timeout_ms :: tail, ?_, ?_, ?_⟩
          · rw [h1]; simp
          · rw [h2]
          · intro e he
            rcases List.mem_cons.mp he with rfl | he
            · exact Or.inl rfl
            · exact h3 e he

/-- With at most 65 configured retries the backoff shift never reaches 64
bits, so the retry loop always returns a value (never the overflow panic) —
for every ping and shutdown behaviour. -/
theorem ping_loop_no_panic (env : Env) (host : String)
    (hr : env.settings.ping_retries ≤ 65) :
    ∀ (remaining attempt : Nat) (s : St), ∃ b s',
      ping_loop env host attempt remaining s = (.ok b, s') := by
  intro remaining
  induction remaining with
  | zero => intro attempt s; exact ⟨false, s, rfl⟩
  | succ r ih =>
    intro attempt s
    simp only [ping_loop, Env.loadShutdown]
    cases hsd : env.shutdown s.checks with
    | true => exact ⟨false, { s with checks := s.checks + 1 }, by simp⟩
    | false =>
      simp only [Bool.false_eq_true, if_false]
      cases hping : env.plat.pingHost host env.settings.ping_timeout_ms with
      | true =>
        exact ⟨true, emit { s with checks := s.checks + 1 }
          (Event.evPing host env.settings.ping_timeout_ms), by simp⟩
      | false =>
        simp only [Bool.false_eq_true, if_false]
        by_cases hlt : attempt < env.settings.ping_retries
        · have hov : ¬ 64 ≤ attempt - 1 := by omega
          simp only [hlt, if_true, hov, if_false]
          exact ih (attempt + 1) _
        · simp only [hlt, if_false]
          exact ih (attempt + 1) _

/-- When the host never answers, the shutdown flag stays unset and at most 65
retries are configured, the retry loop reports unreachable (`false`) without
an error. -/
theorem ping_loop_false (env : Env) (host : String)
    (hping : ∀ t, env.plat.pingHost host t = false)
    (hsd : ∀ k, env.shutdown k = false)
    (hr : env.settings.ping_retries ≤ 65) :
    ∀ (remaining attempt : Nat) (s : St),
      (ping_loop env host attempt remaining s).1 = .ok false := by
  intro remaining
  induction remaining with
  | zero => intro attempt s; rfl
  | succ r ih =>
    intro attempt s
    simp only [ping_loop, Env.loadShutdown, hsd, hping, Bool.false_eq_true, if_false]
    by_cases hlt : attempt < env.settings.ping_retries
    · have hov : ¬ 64 ≤ attempt - 1 := by omega
      simp only [hlt, if_true, hov, if_false]
      exact ih (attempt + 1) _
    · simp only [hlt, if_false]
      exact ih (attempt + 1) _

/-- When the host answers the very first ping and the shutdown flag is unset
at that check, the retry loop reports reachable after exactly one ping and no
sleep. -/
theorem ping_loop_true_first (env : Env) (host : String) (r : Nat) (s : St)
    (hsd : env.shutdown s.checks = false)
    (hping : env.plat.pingHost host env.settings.ping_timeout_ms = true) :
    ping_loop env host 1 (r + 1) s =
      (.ok true,
        { s with
            events := s.events ++ [Event.evPing host env.settings.ping_timeout_ms]
            checks := s.checks + 1 }) := by
  simp [ping_loop, Env.loadShutdown, hsd, hping, emit]

/-- The VPN-wait loop only emits pings of the RDP host and sleeps, and never
touches the `vpn_connected` flag. -/
theorem wait_loop_frame (env : Env) :
    ∀ (remaining : Nat) (s : St), ∃ tail,
      (wait_loop env remaining s).2.events = s.events ++ tail ∧
      (wait_loop env remaining s).2.vpnConnected = s.vpnConnected ∧
      pingSleepOnly env.server.rdp env.settings.ping_timeout_ms tail := by
  intro remaining
  induction remaining using Nat.strong_induction_on with
  | _ remaining ih =>
    intro s
    rw [wait_loop]
    by_cases h0 : remaining = 0
    · refine ⟨[], ?_, ?_, ?_⟩
      · simp [h0]
      · simp [h0]
      · simp [pingSleepOnly]
    · simp only [h0, if_false, Env.loadShutdown]
      cases hsd : env.shutdown s.checks with
      | true =>
        refine ⟨[], ?_, ?_, ?_⟩
        · simp
        · simp
        · simp [pingSleepOnly]
      | false =>
        simp only [Bool.false_eq_true, if_false, emit]
        cases hping : env.plat.pingHost env.server.rdp env.settings.ping_timeout_ms with
        | true =>
          refine ⟨[Event.evPing env.server.rdp env.settings.ping_timeout_ms], by simp, by simp, ?_⟩
          intro e he
          simp at he
          exact Or.inl he
        | false =>
          simp only [Bool.false_eq_true, if_false]
          by_cases h2 : 2 < remaining
          · simp only [h2, if_true]
            obtain ⟨tail, ha, hb, hc⟩ := ih (remaining - 2) (by omega)
              { events :=
                  (s.events ++ [Event.evPing env.server.rdp env.settings.ping_timeout_ms]) ++
                    [Event.evSleepSecs 2]
                vpnConnected := s.vpnConnected
                checks := s.checks + 1 }
            refine ⟨Event.evPing env.server.rdp env.settings.ping_timeout_ms ::
                Event.evSleepSecs 2 :: tail, ?_, ?_, ?_⟩
            · rw [ha]; simp
            · rw [hb]
            · intro e he
              rcases List.mem_cons.mp he with rfl | he
              · exact Or.inl rfl
              rcases List.mem_cons.mp he with rfl | he
              · exact Or.inr ⟨_, rfl⟩
              · exact hc e he
          · simp only [h2, if_false]
            obtain ⟨tail, ha, hb, hc⟩ := ih 0 (by omega)
              { events :=
                  (s.events ++ [Event.evPing env.server.rdp env.settings.ping_timeout_ms]) ++
                    [Event.evSleepSecs remaining]
                vpnConnected := s.vpnConnected
                checks := s.checks + 1 }
            refine ⟨Event.evPing env.server.rdp env.settings.ping_timeout_ms ::
                Event.evSleepSecs remaining :: tail, ?_, ?_, ?_⟩
            · rw [ha]; simp
            · rw [hb]
            · intro e he
              rcases List.mem_cons.mp he with rfl | he
              · exact Or.inl rfl
              rcases List.mem_cons.mp he with rfl | he
              · exact Or.inr ⟨_, rfl⟩
              · exact hc e he

/-- With the shutdown flag unset throughout, the VPN-wait loop always
returns success — either the ping answered or the timeout elapsed and the
source proceeds anyway. -/
theorem wait_loop_ok (env : Env) (hsd : ∀ k, env.shutdown k = false) :
    ∀ (remaining : Nat) (s : St), (wait_loop env remaining s).1 = .ok () := by
  intro remaining
  induction remaining using Nat.strong_induction_on with
  | _ remaining ih =>
    intro s
    rw [wait_loop]
    by_cases h0 : remaining = 0
    · simp [h0]
    · simp only [h0, if_false, Env.loadShutdown, hsd, Bool.false_eq_true, emit]
      cases hping : env.plat.pingHost env.server.rdp env.settings.ping_timeout_ms with
      | true => simp
      | false =>
        simp only [Bool.false_eq_true, if_false]
        by_cases h2 : 2 < remaining
        · simp only [h2, if_true]
          exact ih (remaining - 2) (by omega) _
        · simp only [h2, if_false]
          exact ih 0 (by omega) _

/-- When the RDP host never answers and the shutdown flag stays unset, the
VPN-wait loop exits successfully after sleeping exactly the remaining budget
(the virtual elapsed time of the phase), emitting only RDP pings and
sleeps. -/
theorem wait_loop_timeout (env : Env)
    (hping : ∀ t, env.plat.pingHost env.server.rdp t = false)
    (hsd : ∀ k, env.shutdown k = false) :
    ∀ (remaining : Nat) (s : St), ∃ tail,
      (wait_loop env remaining s).1 = .ok () ∧
      (wait_loop env remaining s).2.events = s.events ++ tail ∧
      (wait_loop env remaining s).2.vpnConnected = s.vpnConnected ∧
      totalSleep tail = remaining ∧
      pingSleepOnly env.server.rdp env.settings.ping_timeout_ms tail := by
  intro remaining
  induction remaining using Nat.strong_induction_on with
  | _ remaining ih =>
    intro s
    rw [wait_loop]
    by_cases h0 : remaining = 0
    · refine ⟨[], by simp [h0], by simp [h0], by simp [h0], ?_, by simp [pingSleepOnly]⟩
      simp [h0, totalSleep]
    · simp only [h0, if_false, Env.loadShutdown, hsd, Bool.false_eq_true, if_false, emit, hping]
      by_cases h2 : 2 < remaining
      · simp only [h2, if_true]
        obtain ⟨tail, hr1, ha, hb, hs, hc⟩ := ih (remaining - 2) (by omega)
          { events :=
              (s.events ++ [Event.evPing env.server.rdp env.settings.ping_timeout_ms]) ++
                [Event.evSleepSecs 2]
            vpnConnected := s.vpnConnected
            checks := s.checks + 1 }
        refine ⟨Event.evPing env.server.rdp env.settings.ping_timeout_ms ::
            Event.evSleepSecs 2 :: tail, hr1, ?_, ?_, ?_, ?_⟩
        · rw [ha]; simp
        · rw [hb]
        · simp only [totalSleep, List.map_cons, List.sum_cons, Event.sleepSecs]
          have : (tail.map Event.sleepSecs).sum = remaining - 2 := hs
          omega
        · intro e he
          rcases List.mem_cons.mp he with rfl | he
          · exact Or.inl rfl
          rcases List.mem_cons.mp he with rfl | he
          · exact Or.inr ⟨_, rfl⟩
          · exact hc e he
      · simp only [h2, if_false]
        obtain ⟨tail, hr1, ha, hb, hs, hc⟩ := ih 0 (by omega)
          { events :=
              (s.events ++ [Event.evPing env.server.rdp env.settings.ping_timeout_ms]) ++
                [Event.evSleepSecs remaining]
            vpnConnected := s.vpnConnected
            checks := s.checks + 1 }
        refine ⟨Event.evPing env.server.rdp env.settings.ping_timeout_ms ::
            Event.evSleepSecs remaining :: tail, hr1, ?_, ?_, ?_, ?_⟩
        · rw [ha]; simp
        · rw [hb]
        · simp only [totalSleep, List.map_cons, List.sum_cons, Event.sleepSecs]
          have : (tail.map Event.sleepSecs).sum = 0 := hs
          omega
        · intro e he
          rcases List.mem_cons.mp he with rfl | he
          · exact Or.inl rfl
          rcases List.mem_cons.mp he with rfl | he
          · exact Or.inr ⟨_, rfl⟩
          · exact hc e he

/-- The reachability check only emits pings of its host and backoff sleeps. -/
theorem check_host_reachable_frame (env : Env) (host : String) (s : St) :
    ∃ tail,
      (check_host_reachable env host s).2.events = s.events ++ tail ∧
      (check_host_reachable env host s).2.vpnConnected = s.vpnConnected ∧
      pingSleepOnly host env.settings.ping_timeout_ms tail :=
  ping_loop_frame env host env.settings.ping_retries 1 s

/-- The RDP session phase emits no VPN connect or disconnect events and
leaves the `vpn_connected` flag unchanged. -/
theorem start_rdp_frame (env : Env) (s : St) :
    ∃ tail,
      (start_rdp env s).2.events = s.events ++ tail ∧
      (start_rdp env s).2.vpnConnected = s.vpnConnected ∧
      sessionOnly tail := by
  unfold start_rdp
  simp only [Env.loadShutdown]
  cases hsd : env.shutdown s.checks with
  | true =>
    refine ⟨[], ?_, ?_, sessionOnly_nil⟩ <;> simp
  | false =>
    simp only [Bool.false_eq_true, if_false]
    rcases hch : check_host_reachable env env.server.rdp { s with checks := s.checks + 1 }
      with ⟨r2, s2⟩
    obtain ⟨tail, ha, hb, hc⟩ :=
      check_host_reachable_frame env env.server.rdp { s with checks := s.checks + 1 }
    rw [hch] at ha hb
    simp at ha hb
    try rw [hch]
    have hsession := sessionOnly_of_pingSleepOnly hc
    cases r2 with
    | error e => exact ⟨tail, by simpa using ha, by simpa using hb, hsession⟩
    | ok b =>
      cases b with
      | false => exact ⟨tail, by simpa using ha, by simpa using hb, hsession⟩
      | true =>
        cases hrdp : env.plat.startRDP env.server.rdp with
        | error msg =>
          refine ⟨tail ++ [Event.evLaunchRDP env.server.rdp], ?_, ?_, ?_⟩
          · simp [emit, ha]
          · simp [emit, hb]
          · exact sessionOnly_append hsession
              (by intro e he; simp at he; subst he; simp [Event.isConnect, Event.isDisconnect])
        | ok u =>
          refine ⟨tail ++ [Event.evLaunchRDP env.server.rdp], ?_, ?_, ?_⟩
          · simp [emit, ha]
          · simp [emit, hb]
          · exact sessionOnly_append hsession
              (by intro e he; simp at he; subst he; simp [Event.isConnect, Event.isDisconnect])

/-- The SSH session phase emits no VPN connect or disconnect events and
leaves the `vpn_connected` flag unchanged. -/
theorem start_ssh_frame (env : Env) (s : St) :
    ∃ tail,
      (start_ssh env s).2.events = s.events ++ tail ∧
      (start_ssh env s).2.vpnConnected = s.vpnConnected ∧
      sessionOnly tail := by
  unfold start_ssh
  simp only [Env.loadShutdown]
  cases hsd : env.shutdown s.checks with
  | true =>
    refine ⟨[], ?_, ?_, sessionOnly_nil⟩ <;> simp
  | false =>
    simp only [Bool.false_eq_true, if_false]
    split
    next hstr => refine ⟨[], ?_, ?_, sessionOnly_nil⟩ <;> simp
    next sshStr hstr =>
      split
      next hip => refine ⟨[], ?_, ?_, sessionOnly_nil⟩ <;> simp
      next sshIp hip =>
        obtain ⟨tail, ha, hb, hc⟩ :=
          check_host_reachable_frame env sshIp { s with checks := s.checks + 1 }
        have hsession := sessionOnly_of_pingSleepOnly hc
        split
        next e s2 heq =>
          rw [heq] at ha hb
          simp at ha hb
          exact ⟨tail, by simp [ha], by simp [hb], hsession⟩
        next s2 heq =>
          rw [heq] at ha hb
          simp at ha hb
          exact ⟨tail, by simp [ha], by simp [hb], hsession⟩
        next s2 heq =>
          rw [heq] at ha hb
          simp at ha hb
          split
          next msg hssh =>
            refine ⟨tail ++ [Event.evLaunchSSH sshStr], ?_, ?_, ?_⟩
            · simp [emit, ha]
            · simp [emit, hb]
            · exact sessionOnly_append hsession
                (by intro e he; simp at he; subst he; simp [Event.isConnect, Event.isDisconnect])
          next u hssh =>
            refine ⟨tail ++ [Event.evLaunchSSH sshStr], ?_, ?_, ?_⟩
            · simp [emit, ha]
            · simp [emit, hb]
            · exact sessionOnly_append hsession
                (by intro e he; simp at he; subst he; simp [Event.isConnect, Event.isDisconnect])

/-- Everything `connect` does after the VPN phase emits no VPN connect or
disconnect events and leaves the `vpn_connected` flag as the VPN phase left
it. -/
theorem connect_frame (env : Env) (ct : ConnectionType) (s : St) :
    ∃ tail,
      (connect env ct s).2.events = (connect_vpn env s).2.events ++ tail ∧
      (connect env ct s).2.vpnConnected = (connect_vpn env s).2.vpnConnected ∧
      sessionOnly tail := by
  unfold connect
  split
  next e s1 heq => exact ⟨[], by simp [heq], by simp [heq], sessionOnly_nil⟩
  next u s1 heq =>
    split
    · -- ConnectionType.rdp
      obtain ⟨tail, ha, hb, hc⟩ := start_rdp_frame env s1
      split
      next e s2 heq2 =>
        rw [heq2] at ha hb
        simp at ha hb
        exact ⟨tail, by simp [heq, ha], by simp [heq, hb], hc⟩
      next s2 heq2 =>
        rw [heq2] at ha hb
        simp at ha hb
        exact ⟨tail, by simp [heq, ha], by simp [heq, hb], hc⟩
      next u2 s2 heq2 =>
        rw [heq2] at ha hb
        simp at ha hb
        refine ⟨tail ++ [Event.evRdpWait], ?_, ?_, ?_⟩
        · simp [emit, heq, ha]
        · simp [emit, heq, hb]
        · exact sessionOnly_append hc
            (by intro e he; simp at he; subst he; simp [Event.isConnect, Event.isDisconnect])
    · -- ConnectionType.ssh
      obtain ⟨tail, ha, hb, hc⟩ := start_ssh_frame env s1
      split
      next e s2 heq2 =>
        rw [heq2] at ha hb
        simp at ha hb
        exact ⟨tail, by simp [heq, ha], by simp [heq, hb], hc⟩
      next u2 s2 heq2 =>
        rw [heq2] at ha hb
        simp at ha hb
        exact ⟨tail, by simp [heq, ha], by simp [heq, hb], hc⟩
    · -- ConnectionType.both
      obtain ⟨tailR, ha, hb, hc⟩ := start_rdp_frame env s1
      split
      next e s2 heq2 =>
        rw [heq2] at ha hb
        simp at ha hb
        exact ⟨tailR, by simp [heq, ha], by simp [heq, hb], hc⟩
      next child s2 heq2 =>
        rw [heq2] at ha hb
        simp at ha hb
        obtain ⟨tailS, hd, he', hf⟩ := start_ssh_frame env s2
        split
        next e s3 heq3 =>
          rw [heq3] at hd he'
          simp at hd he'
          refine ⟨tailR ++ tailS, ?_, ?_, sessionOnly_append hc hf⟩
          · simp [heq, hd, ha]
          · simp [heq, he', hb]
        next u3 s3 heq3 =>
          rw [heq3] at hd he'
          simp at hd he'
          cases child with
          | none =>
            refine ⟨tailR ++ tailS, ?_, ?_, sessionOnly_append hc hf⟩
            · simp [heq, hd, ha]
            · simp [heq, he', hb]
          | some u2 =>
            refine ⟨tailR ++ (tailS ++ [Event.evRdpWait]), ?_, ?_, ?_⟩
            · simp [emit, heq, hd, ha]
            · simp [emit, heq, he', hb]
            · refine sessionOnly_append hc (sessionOnly_append hf ?_)
              intro e he
              simp at he
              subst he
              simp [Event.isConnect, Event.isDisconnect]

end ConnectionManager

theorem countP_isConnect_of_sessionOnly {l : List Event} (h : sessionOnly l) :
    countP Event.isConnect l = 0 :=
  countP_eq_zero (fun e he => (h e he).1)

theorem countP_isDisconnect_of_sessionOnly {l : List Event} (h : sessionOnly l) :
    countP Event.isDisconnect l = 0 :=
  countP_eq_zero (fun e he => (h e he).2)

theorem countP_nil (p : Event → Bool) : countP p [] = 0 := rfl

theorem countP_cons (p : Event → Bool) (e : Event) (l : List Event) :
    countP p (e :: l) = (if p e then 1 else 0) + countP p l := by
  by_cases h : p e <;> simp [countP, List.filter_cons, h, Nat.add_comm]

theorem countP_zero_of_pingSleepOnly {p : Event → Bool}
    (hp : ∀ h t, p (Event.evPing h t) = false)
    (hs : ∀ n, p (Event.evSleepSecs n) = false)
    {host : String} {tmo : Nat} {evs : List Event} (h : pingSleepOnly host tmo evs) :
    countP p evs = 0 :=
  countP_eq_zero fun e he => by
    rcases h e he with rfl | ⟨n, rfl⟩
    · exact hp host tmo
    · exact hs n

namespace ConnectionManager

theorem connect_lifetime_fst (env : Env) (ct : ConnectionType) :
    (connect_lifetime env ct).1 = (connect env ct initSt).1 := by
  unfold connect_lifetime
  split
  next r s h => rw [h]

theorem connect_lifetime_snd (env : Env) (ct : ConnectionType) :
    (connect_lifetime env ct).2 = disconnect_vpn env (connect env ct initSt).2 := by
  unfold connect_lifetime
  split
  next r s h => rw [h]

/-- When at least one retry is configured and the shutdown flag is unset at
the first check, the first event the retry loop emits is a ping of its
host. -/
theorem ping_loop_first (env : Env) (host : String) (r : Nat) (s : St)
    (hsd : env.shutdown s.checks = false) :
    ∃ rest, (ping_loop env host 1 (r + 1) s).2.events =
      s.events ++ Event.evPing host env.settings.ping_timeout_ms :: rest := by
  simp only [ping_loop, Env.loadShutdown, hsd, Bool.false_eq_true, if_false, emit]
  cases hping : env.plat.pingHost host env.settings.ping_timeout_ms with
  | true => exact ⟨[], by simp⟩
  | false =>
    simp only [Bool.false_eq_true, if_false]
    by_cases hlt : 1 < env.settings.ping_retries
    · have hov : ¬ (64 ≤ (1 : Nat) - 1) := by omega
      simp only [hlt, if_true, hov, if_false]
      obtain ⟨tail, h1, h2, h3⟩ := ping_loop_frame env host r 2
        { events :=
            (s.events ++ [Event.evPing host env.settings.ping_timeout_ms]) ++
              [Event.evSleepSecs (1 <<< (1 - 1))]
          vpnConnected := s.vpnConnected
          checks := s.checks + 1 }
      refine ⟨Event.evSleepSecs (1 <<< (1 - 1)) :: tail, ?_⟩
      rw [h1]
      simp
    · simp only [hlt, if_false]
      obtain ⟨tail, h1, h2, h3⟩ := ping_loop_frame env host r 2
        { events := s.events ++ [Event.evPing host env.settings.ping_timeout_ms]
          vpnConnected := s.vpnConnected
          checks := s.checks + 1 }
      refine ⟨tail, ?_⟩
      rw [h1]
      simp

end ConnectionManager

/-! ## Claims -/

/-- C3 (confirmed): with `ping_retries = 3`, a `ping_host` that always
returns false, and an unset shutdown flag, `check_host_reachable` invokes
`ping_host` exactly 3 times, sleeps 1s after the first failed attempt and 2s
after the second, sleeps nothing after the final attempt, returns
unreachable (`false`), and never raises an error: the run is exactly the
trace ping, sleep 1, ping, sleep 2, ping. -/
theorem claim_C3 (env : Env) (host : String) (s : St)
    (h3 : env.settings.ping_retries = 3)
    (hping : ∀ t, env.plat.pingHost host t = false)
    (hsd : ∀ k, env.shutdown k = false) :
    ConnectionManager.check_host_reachable env host s =
      (.ok false,
        { s with
            events := s.events ++
              [Event.evPing host env.settings.ping_timeout_ms,
               Event.evSleepSecs 1,
               Event.evPing host env.settings.ping_timeout_ms,
               Event.evSleepSecs 2,
               Event.evPing host env.settings.ping_timeout_ms]
            checks := s.checks + 3 }) := by
  unfold ConnectionManager.check_host_reachable
  rw [h3]
  simp [ConnectionManager.ping_loop, Env.loadShutdown, emit, hping, hsd, h3, St.mk.injEq]

/-- C3 witness: the concrete run with the default settings. -/
theorem claim_C3_witness :
    ConnectionManager.check_host_reachable envPingFalse "10.0.0.9" initSt =
      (.ok false,
        { initSt with
            events := initSt.events ++
              [Event.evPing "10.0.0.9" envPingFalse.settings.ping_timeout_ms,
               Event.evSleepSecs 1,
               Event.evPing "10.0.0.9" envPingFalse.settings.ping_timeout_ms,
               Event.evSleepSecs 2,
               Event.evPing "10.0.0.9" envPingFalse.settings.ping_timeout_ms]
            checks := initSt.checks + 3 }) :=
  claim_C3 envPingFalse "10.0.0.9" initSt rfl (fun _ => rfl) (fun _ => rfl)

/-- C5 (confirmed): if the shared cancellation flag is already set before
`connect` is called, the whole manager lifetime returns the Cancelled error
(`shutdownRequested` from the `bail!` in `connect_vpn`) with an empty event
trace — in particular neither `launchRDP` nor `launchSSH` nor `connectVPN`
is ever invoked. -/
theorem claim_C5 (env : Env) (ct : ConnectionType) (hsd : env.shutdown 0 = true) :
    ConnectionManager.connect_lifetime env ct =
      (.error .shutdownRequested, { events := [], vpnConnected := false, checks := 1 }) := by
  have h : ConnectionManager.connect env ct initSt =
      (.error .shutdownRequested, { events := [], vpnConnected := false, checks := 1 }) := by
    unfold ConnectionManager.connect ConnectionManager.connect_vpn
    simp [Env.loadShutdown, initSt, hsd]
  unfold ConnectionManager.connect_lifetime
  rw [h]
  simp [ConnectionManager.disconnect_vpn]

/-- C5 witness: the concrete cancelled run. -/
theorem claim_C5_witness :
    ConnectionManager.connect_lifetime envShutdownSet .ssh =
      (.error .shutdownRequested, { events := [], vpnConnected := false, checks := 1 }) :=
  claim_C5 envShutdownSet .ssh rfl

/-- C2 counterexample to the claim as stated: when the platform `connectVPN`
call fails, `connect_vpn` returns an error (it aborts) and the VPN-wait
phase is never entered — the trace holds no ping at all. -/
theorem claim_C2_cex :
    (ConnectionManager.connect_vpn envConnErr initSt).1 =
      .error (.vpnConnectFailed "boom") ∧
    countP Event.isPing (ConnectionManager.connect_vpn envConnErr initSt).2.events = 0 :=
  ⟨rfl, rfl⟩

/-- C2 (amended): when the platform `connectVPN` call returns an error,
`connect_vpn` propagates the error with `?` and aborts before the VPN-wait
phase — the only recorded call is the connectVPN invocation itself.  The
"reported but non-blocking" behaviour of the spec lives one layer down: the
Unix platform implementation returns Ok for every outcome of the VPN
command, so a failing VPN command (as opposed to an unspawnable one) never
surfaces as an error to the orchestrator. -/
theorem claim_C2 (env : Env) (msg : String) (s : St)
    (hsd : env.shutdown s.checks = false)
    (hplat : env.plat.connectVPN env.server.vpn = .error msg) :
    ConnectionManager.connect_vpn env s =
      (.error (.vpnConnectFailed msg),
        { s with
            events := s.events ++ [Event.evConnectVPN env.server.vpn]
            checks := s.checks + 1 }) ∧
    (∀ r, unix_connect_vpn r = .ok ()) := by
  constructor
  · unfold ConnectionManager.connect_vpn
    simp [Env.loadShutdown, hsd, hplat, emit]
  · intro r
    cases r with
    | error e => rfl
    | ok b => cases b <;> rfl

/-- C2 witness: the concrete aborted run. -/
theorem claim_C2_witness :
    ConnectionManager.connect_vpn envConnErr initSt =
      (.error (.vpnConnectFailed "boom"),
        { initSt with
            events := initSt.events ++ [Event.evConnectVPN envConnErr.server.vpn]
            checks := initSt.checks + 1 }) ∧
    (∀ r, unix_connect_vpn r = .ok ()) :=
  claim_C2 envConnErr "boom" initSt rfl rfl

/-- C7 counterexample to the claim as stated: for the SSH string "a@b@c" the
resolved host is "b" (the piece between the first and second '@'), not
"b@c" (everything after the first '@'). -/
theorem claim_C7_cex :
    Server.ssh_ip { name := "T", ssh := some "a@b@c", rdp := "r", vpn := "v" } = some "b" ∧
    Server.ssh_ip { name := "T", ssh := some "a@b@c", rdp := "r", vpn := "v" } ≠ some "b@c" := by
  constructor
  · decide
  · decide

/-- C7 (amended): for every non-empty SSH target string, the host used for
the SSH reachability check is the second '@'-separated component of the
string (`split('@').nth(1)`), not everything after the first '@'; when the
string has no '@' there is no such component, `ssh_ip` is `none`, and
`start_ssh` fails with the ConfigError `sshIpExtractFailed`; when it exists,
the first thing the SSH phase does after its shutdown check is ping exactly
that host. -/
theorem claim_C7 (sv : Server) (str : String) (hstr : sv.ssh_string = some str) :
    sv.ssh_ip = ((splitChar '@' str.data).get? 1).map (fun l => String.mk l) ∧
    (sv.ssh_ip = none →
      ∀ (env : Env) (s : St), env.server = sv → (∀ k, env.shutdown k = false) →
        (ConnectionManager.start_ssh env s).1 = .error .sshIpExtractFailed) ∧
    (∀ ip, sv.ssh_ip = some ip →
      ∀ (env : Env) (s : St), env.server = sv → (∀ k, env.shutdown k = false) →
        1 ≤ env.settings.ping_retries →
        ∃ rest, (ConnectionManager.start_ssh env s).2.events =
          s.events ++ Event.evPing ip env.settings.ping_timeout_ms :: rest) := by
  refine ⟨by simp [Server.ssh_ip, hstr], ?_, ?_⟩
  · intro hnone env s henv hsd
    unfold ConnectionManager.start_ssh
    simp [Env.loadShutdown, hsd, henv, hstr, hnone]
  · intro ip hip env s henv hsd hr1
    obtain ⟨r, hr⟩ : ∃ r, env.settings.ping_retries = r + 1 :=
      ⟨env.settings.ping_retries - 1, by omega⟩
    unfold ConnectionManager.start_ssh
    simp only [Env.loadShutdown, hsd, Bool.false_eq_true, if_false, henv, hstr, hip]
    have hfirst : ∃ rest0,
        (ConnectionManager.check_host_reachable env ip
          { s with checks := s.checks + 1 }).2.events =
          s.events ++ Event.evPing ip env.settings.ping_timeout_ms :: rest0 := by
      unfold ConnectionManager.check_host_reachable
      rw [hr]
      exact ConnectionManager.ping_loop_first env ip r { s with checks := s.checks + 1 } (hsd _)
    obtain ⟨rc, sc, hch⟩ :
        ∃ a b, ConnectionManager.check_host_reachable env ip
          { s with checks := s.checks + 1 } = (a, b) := ⟨_, _, rfl⟩
    rw [hch] at hfirst
    simp at hfirst
    obtain ⟨rest0, hrest0⟩ := hfirst
    rw [hch]
    cases rc with
    | error e => exact ⟨rest0, by simpa using hrest0⟩
    | ok b =>
      cases b with
      | false => exact ⟨rest0, by simpa using hrest0⟩
      | true =>
        cases hssh : env.plat.startSSH str with
        | error m =>
          exact ⟨rest0 ++ [Event.evLaunchSSH str], by simp [emit, hrest0]⟩
        | ok u =>
          exact ⟨rest0 ++ [Event.evLaunchSSH str], by simp [emit, hrest0]⟩

/-- C7 witness: the well-formed target user\x40 10.0.0.2 resolves to host
10.0.0.2. -/
theorem claim_C7_witness :
    Server.ssh_ip srvSsh =
      ((splitChar '@' "user@10.0.0.2".data).get? 1).map (fun l => String.mk l) ∧
    (Server.ssh_ip srvSsh = none →
      ∀ (env : Env) (s : St), env.server = srvSsh → (∀ k, env.shutdown k = false) →
        (ConnectionManager.start_ssh env s).1 = .error .sshIpExtractFailed) ∧
    (∀ ip, Server.ssh_ip srvSsh = some ip →
      ∀ (env : Env) (s : St), env.server = srvSsh → (∀ k, env.shutdown k = false) →
        1 ≤ env.settings.ping_retries →
        ∃ rest, (ConnectionManager.start_ssh env s).2.events =
          s.events ++ Event.evPing ip env.settings.ping_timeout_ms :: rest) :=
  claim_C7 srvSsh "user@10.0.0.2" (by decide)

/-- C9 counterexample to the claim as stated: committing on the last
EditServer field with every field empty still adds a catalog entry — the
empty server is upserted, no validation rejects it. -/
theorem claim_C9_cex :
    (App.confirm_selection platTrue appEditEmpty).config.servers =
      [{ name := "", ssh := none, rdp := "", vpn := "" }] := by
  decide

/-- C9 (amended): committing on the last EditServer field saves the current
input into the VPN field and unconditionally upserts the resulting server
into the catalog (append in add mode, overwrite of the selected index in
edit mode), returning to the server list; no non-emptiness validation of
name, RDP or VPN is performed — only the empty-SSH-means-none normalisation
happens. -/
theorem claim_C9 (plat : Platform) (a : App)
    (hscr : a.screen = .editServer)
    (hidx : a.edit_field_index = 3) :
    (App.confirm_selection plat a).screen = .serverList ∧
    (a.edit_mode = false →
      (App.confirm_selection plat a).config.servers =
        a.config.servers ++
          [{ name := a.edit_server_fields.name
             ssh := if a.edit_server_fields.ssh.isEmpty then none
                    else some a.edit_server_fields.ssh
             rdp := a.edit_server_fields.rdp
             vpn := a.input_buffer }]) ∧
    (a.edit_mode = true →
      (App.confirm_selection plat a).config.servers =
        a.config.servers.set a.selected_server
          { name := a.edit_server_fields.name
            ssh := if a.edit_server_fields.ssh.isEmpty then none
                   else some a.edit_server_fields.ssh
            rdp := a.edit_server_fields.rdp
            vpn := a.input_buffer }) := by
  refine ⟨?_, ?_, ?_⟩
  · simp [App.confirm_selection, hscr, hidx, App.save_current_field, App.save_server,
      App.go_to_screen]
  · intro hm
    simp [App.confirm_selection, hscr, hidx, App.save_current_field, App.save_server,
      App.go_to_screen, hm]
  · intro hm
    simp [App.confirm_selection, hscr, hidx, App.save_current_field, App.save_server,
      App.go_to_screen, hm]

/-- C9 witness: the concrete empty-fields commit. -/
theorem claim_C9_witness :
    (App.confirm_selection platTrue appEditEmpty).screen = .serverList ∧
    (appEditEmpty.edit_mode = false →
      (App.confirm_selection platTrue appEditEmpty).config.servers =
        appEditEmpty.config.servers ++
          [{ name := appEditEmpty.edit_server_fields.name
             ssh := if appEditEmpty.edit_server_fields.ssh.isEmpty then none
                    else some appEditEmpty.edit_server_fields.ssh
             rdp := appEditEmpty.edit_server_fields.rdp
             vpn := appEditEmpty.input_buffer }]) ∧
    (appEditEmpty.edit_mode = true →
      (App.confirm_selection platTrue appEditEmpty).config.servers =
        appEditEmpty.config.servers.set appEditEmpty.selected_server
          { name := appEditEmpty.edit_server_fields.name
            ssh := if appEditEmpty.edit_server_fields.ssh.isEmpty then none
                   else some appEditEmpty.edit_server_fields.ssh
            rdp := appEditEmpty.edit_server_fields.rdp
            vpn := appEditEmpty.input_buffer }) :=
  claim_C9 platTrue appEditEmpty rfl rfl

/-- C10 (confirmed): whenever at most 65 ping retries are configured, the
u64 backoff shift `1 << (attempt - 1)` stays below 64 bits on every executed
iteration, so the overflow branch is unreachable and the reachability check
always returns a value; with `ping_retries = 66`, an always-failing
`ping_host` and an unset shutdown flag, the executed shift amount reaches 64
and the run aborts with the modelled arithmetic-overflow panic. -/
theorem claim_C10 :
    (∀ (env : Env) (host : String) (s : St),
      1 ≤ env.settings.ping_retries → env.settings.ping_retries ≤ 65 →
      ∃ b s', ConnectionManager.check_host_reachable env host s = (.ok b, s')) ∧
    (ConnectionManager.check_host_reachable env66 "10.0.0.9" initSt).1 =
      .error .panicOverflow := by
  constructor
  · intro env host s _ h65
    exact ConnectionManager.ping_loop_no_panic env host h65 _ _ _
  · rfl

/-- C10 witness: the default three-retry settings are in the safe range. -/
theorem claim_C10_witness :
    ∃ b s', ConnectionManager.check_host_reachable envPingFalse "10.0.0.9" initSt =
      (.ok b, s') :=
  claim_C10.1 envPingFalse "10.0.0.9" initSt (by decide) (by decide)

/-- C4 counterexample to the claim as stated: in the interactive
controller, once the elapsed time exceeds the VPN timeout with a failing
ping, the tick update sets the Error status "VPN connection timeout" — it
reports an error instead of proceeding to the session. -/
theorem claim_C4_cex :
    (App.update_connection platFalse 31 appWait).connection_status =
      .error "VPN connection timeout" := by
  rfl

/-- C4 (amended): with an always-failing `ping_host` and an unset shutdown
flag, the blocking orchestrator's WaitingForVPN phase exits after exactly
`vpn_timeout` of virtual elapsed (slept) time — within the claimed bound of
one extra poll interval — and proceeds successfully; the interactive
controller's tick update, however, does not proceed: once the elapsed time
exceeds `vpn_timeout` it transitions to the Error status
"VPN connection timeout". -/
theorem claim_C4 (env : Env) (plat : Platform) (a : App) (elapsed : Nat) (server : Server)
    (hping : ∀ t, env.plat.pingHost env.server.rdp t = false)
    (hsd : ∀ k, env.shutdown k = false)
    (hsrv : a.current_server = some server)
    (hst : a.connection_status = .waitingForVpn)
    (hstart : a.connection_start = some ())
    (hping2 : plat.pingHost server.rdp a.config.settings.ping_timeout_ms = false)
    (helap : a.config.settings.vpn_timeout_secs < elapsed) :
    (∀ s : St,
      (ConnectionManager.wait_for_vpn_connection env s).1 = .ok () ∧
      ∃ tail,
        (ConnectionManager.wait_for_vpn_connection env s).2.events = s.events ++ tail ∧
        totalSleep tail = env.settings.vpn_timeout_secs) ∧
    App.update_connection plat elapsed a =
      { a with connection_status := .error "VPN connection timeout" } := by
  constructor
  · intro s
    obtain ⟨tail, h1, h2, _, h4, _⟩ :=
      ConnectionManager.wait_loop_timeout env hping hsd env.settings.vpn_timeout_secs s
    exact ⟨h1, tail, h2, h4⟩
  · unfold App.update_connection
    simp [hst, hsrv, hstart, hping2, helap]

/-- C4 witness: the concrete run with a 30s timeout and a 31s elapsed
tick. -/
theorem claim_C4_witness :
    (∀ s : St,
      (ConnectionManager.wait_for_vpn_connection envPingFalse s).1 = .ok () ∧
      ∃ tail,
        (ConnectionManager.wait_for_vpn_connection envPingFalse s).2.events =
          s.events ++ tail ∧
        totalSleep tail = envPingFalse.settings.vpn_timeout_secs) ∧
    App.update_connection platFalse 31 appWait =
      { appWait with connection_status := .error "VPN connection timeout" } :=
  claim_C4 envPingFalse platFalse appWait 31 srvNoSsh
    (fun _ => rfl) (fun _ => rfl) rfl rfl rfl rfl (by decide)

/-- C1 counterexample to the claim as stated: when cancellation is signalled
before `connect` starts, the terminal outcome is Cancelled, yet over the
whole manager lifetime (connect plus Drop) `disconnectVPN` is invoked zero
times, not exactly once — `vpn_connected` was never set, so the Drop guard
skips the platform disconnect. -/
theorem claim_C1_cex :
    (ConnectionManager.connect_lifetime envShutdownSet .rdp).1 =
      .error .shutdownRequested ∧
    countP Event.isDisconnect
      (ConnectionManager.connect_lifetime envShutdownSet .rdp).2.events = 0 :=
  ⟨rfl, rfl⟩

/-- C1 (amended): over one `ConnectionManager` lifetime (a `connect` call
followed by the Drop), `connectVPN` is invoked at most once and
`disconnectVPN` at most once; and `disconnectVPN` is invoked exactly once
precisely when `connectVPN` was invoked and the platform call succeeded —
for a run cancelled before the VPN connect, or whose platform connect call
itself failed, `disconnectVPN` is not invoked at all. -/
theorem claim_C1 (env : Env) (ct : ConnectionType) :
    countP Event.isConnect (ConnectionManager.connect_lifetime env ct).2.events ≤ 1 ∧
    countP Event.isDisconnect (ConnectionManager.connect_lifetime env ct).2.events ≤ 1 ∧
    (countP Event.isDisconnect (ConnectionManager.connect_lifetime env ct).2.events = 1 ↔
      countP Event.isConnect (ConnectionManager.connect_lifetime env ct).2.events = 1 ∧
      env.plat.connectVPN env.server.vpn = .ok ()) := by
  rw [ConnectionManager.connect_lifetime_snd]
  obtain ⟨tail, ha, hb, hc⟩ := ConnectionManager.connect_frame env ct initSt
  cases hsd0 : env.shutdown 0 with
  | true =>
    have hcv : ConnectionManager.connect_vpn env initSt =
        (.error .shutdownRequested, { events := [], vpnConnected := false, checks := 1 }) := by
      unfold ConnectionManager.connect_vpn
      simp [Env.loadShutdown, initSt, hsd0]
    rw [hcv] at ha hb
    simp at ha hb
    have hd : ConnectionManager.disconnect_vpn env (ConnectionManager.connect env ct initSt).2 =
        (ConnectionManager.connect env ct initSt).2 := by
      unfold ConnectionManager.disconnect_vpn
      simp [hb]
    rw [hd, ha]
    have h1 := countP_isConnect_of_sessionOnly hc
    have h2 := countP_isDisconnect_of_sessionOnly hc
    simp [h1, h2]
  | false =>
    cases hplat : env.plat.connectVPN env.server.vpn with
    | error msg =>
      have hcv : ConnectionManager.connect_vpn env initSt =
          (.error (.vpnConnectFailed msg),
            { events := [Event.evConnectVPN env.server.vpn]
              vpnConnected := false, checks := 1 }) := by
        unfold ConnectionManager.connect_vpn
        simp [Env.loadShutdown, initSt, hsd0, hplat, emit]
      rw [hcv] at ha hb
      simp at ha hb
      have hd : ConnectionManager.disconnect_vpn env
          (ConnectionManager.connect env ct initSt).2 =
          (ConnectionManager.connect env ct initSt).2 := by
        unfold ConnectionManager.disconnect_vpn
        simp [hb]
      rw [hd, ha]
      have h1 := countP_isConnect_of_sessionOnly hc
      have h2 := countP_isDisconnect_of_sessionOnly hc
      simp [countP_cons, h1, h2, Event.isConnect, Event.isDisconnect, hplat]
    | ok u =>
      cases u
      have hcv : ConnectionManager.connect_vpn env initSt =
          ConnectionManager.wait_for_vpn_connection env
            { events := [Event.evConnectVPN env.server.vpn]
              vpnConnected := true, checks := 1 } := by
        unfold ConnectionManager.connect_vpn
        simp [Env.loadShutdown, initSt, hsd0, hplat, emit]
      obtain ⟨wtail, hwa, hwb, hwc⟩ :=
        ConnectionManager.wait_loop_frame env env.settings.vpn_timeout_secs
          { events := [Event.evConnectVPN env.server.vpn]
            vpnConnected := true, checks := 1 }
      have hevents : (ConnectionManager.connect_vpn env initSt).2.events =
          Event.evConnectVPN env.server.vpn :: wtail := by
        rw [hcv]
        unfold ConnectionManager.wait_for_vpn_connection
        rw [hwa]
        simp
      have hvpn : (ConnectionManager.connect_vpn env initSt).2.vpnConnected = true := by
        rw [hcv]
        unfold ConnectionManager.wait_for_vpn_connection
        rw [hwb]
      rw [hevents] at ha
      rw [hvpn] at hb
      have hd : ConnectionManager.disconnect_vpn env
          (ConnectionManager.connect env ct initSt).2 =
          { emit (ConnectionManager.connect env ct initSt).2
              (.evDisconnectVPN env.server.vpn) with vpnConnected := false } := by
        unfold ConnectionManager.disconnect_vpn
        simp [hb]
      rw [hd]
      simp only [emit]
      rw [ha]
      have hw0c := countP_zero_of_pingSleepOnly (p := Event.isConnect)
        (fun _ _ => rfl) (fun _ => rfl) hwc
      have hw0d := countP_zero_of_pingSleepOnly (p := Event.isDisconnect)
        (fun _ _ => rfl) (fun _ => rfl) hwc
      have ht0c := countP_isConnect_of_sessionOnly hc
      have ht0d := countP_isDisconnect_of_sessionOnly hc
      simp [countP_append, countP_cons, countP_singleton, hw0c, hw0d, ht0c, ht0d,
        Event.isConnect, Event.isDisconnect, hplat]
      simp [countP]

/-- C8 counterexample to the claim as stated: with a malformed SSH target
and a reachable RDP host, `connect` in SSH mode does return the ConfigError
(`sshIpExtractFailed`), but only after the VPN-wait phase has already pinged
the RDP host — a `ping_host` call precedes the error. -/
theorem claim_C8_cex :
    (ConnectionManager.connect envBadSsh .ssh initSt).1 = .error .sshIpExtractFailed ∧
    Event.evPing "10.0.0.1" 3000 ∈ (ConnectionManager.connect envBadSsh .ssh initSt).2.events := by
  have h : ConnectionManager.connect envBadSsh .ssh initSt =
      (.error .sshIpExtractFailed,
        { events := [Event.evConnectVPN "B-VPN", Event.evPing "10.0.0.1" 3000]
          vpnConnected := true, checks := 3 }) := by
    have h1 : (Server.mk "B" (some "nouser-no-at-sign") "10.0.0.1" "B-VPN").ssh_string =
        some "nouser-no-at-sign" := by decide
    have h2 : (Server.mk "B" (some "nouser-no-at-sign") "10.0.0.1" "B-VPN").ssh_ip = none := by
      decide
    unfold ConnectionManager.connect ConnectionManager.connect_vpn
      ConnectionManager.wait_for_vpn_connection ConnectionManager.start_ssh
    simp [ConnectionManager.wait_loop, Env.loadShutdown, emit, envBadSsh, srvBadSsh,
      platTrue, stdSettings, initSt, h1, h2]
  rw [h]
  exact ⟨rfl, by simp⟩

/-- C8 (amended): for a server whose SSH target contains no '@', `connect`
in SSH mode returns the ConfigError (`sshIpExtractFailed`) before any
`launchRDP`/`launchSSH` call and before any ping of an SSH host — but not
before the VPN-wait phase, whose pings of the RDP host happen first: every
ping in the trace targets the RDP address. -/
theorem claim_C8 (env : Env) (sshStr : String)
    (hconn : env.plat.connectVPN env.server.vpn = .ok ())
    (hstr : env.server.ssh_string = some sshStr)
    (hip : env.server.ssh_ip = none)
    (hsd : ∀ k, env.shutdown k = false) :
    (ConnectionManager.connect env .ssh initSt).1 = .error .sshIpExtractFailed ∧
    countP Event.isLaunchRdp (ConnectionManager.connect env .ssh initSt).2.events = 0 ∧
    countP Event.isLaunchSsh (ConnectionManager.connect env .ssh initSt).2.events = 0 ∧
    (∀ h t, Event.evPing h t ∈ (ConnectionManager.connect env .ssh initSt).2.events →
      h = env.server.rdp) := by
  have hok := ConnectionManager.wait_loop_ok env hsd env.settings.vpn_timeout_secs
    { events := [Event.evConnectVPN env.server.vpn], vpnConnected := true, checks := 1 }
  obtain ⟨wtail, hwa, hwb, hwc⟩ :=
    ConnectionManager.wait_loop_frame env env.settings.vpn_timeout_secs
      { events := [Event.evConnectVPN env.server.vpn], vpnConnected := true, checks := 1 }
  set S1 := (ConnectionManager.wait_loop env env.settings.vpn_timeout_secs
    { events := [Event.evConnectVPN env.server.vpn], vpnConnected := true, checks := 1 }).2
    with hS1def
  simp at hwa hwb
  have hcv2 : ConnectionManager.connect_vpn env initSt = (.ok (), S1) := by
    unfold ConnectionManager.connect_vpn
    simp only [Env.loadShutdown, initSt, hsd, Bool.false_eq_true, if_false, emit, hconn]
    unfold ConnectionManager.wait_for_vpn_connection
    rw [Prod.ext_iff]
    exact ⟨hok, rfl⟩
  have hss : ConnectionManager.start_ssh env S1 =
      (.error .sshIpExtractFailed, { S1 with checks := S1.checks + 1 }) := by
    unfold ConnectionManager.start_ssh
    simp [Env.loadShutdown, hsd, hstr, hip]
  have hconn2 : ConnectionManager.connect env .ssh initSt =
      (.error .sshIpExtractFailed, { S1 with checks := S1.checks + 1 }) := by
    unfold ConnectionManager.connect
    rw [hcv2]
    simp [hss]
  rw [hconn2]
  refine ⟨rfl, ?_, ?_, ?_⟩
  · have h0 : countP Event.isLaunchRdp wtail = 0 :=
      countP_zero_of_pingSleepOnly (fun _ _ => rfl) (fun _ => rfl) hwc
    simp [hwa, countP_cons, h0, Event.isLaunchRdp]
  · have h0 : countP Event.isLaunchSsh wtail = 0 :=
      countP_zero_of_pingSleepOnly (fun _ _ => rfl) (fun _ => rfl) hwc
    simp [hwa, countP_cons, h0, Event.isLaunchSsh]
  · intro h t hmem
    simp [hwa] at hmem
    rcases hwc _ hmem with heq | ⟨n, heq⟩
    · simp at heq
      exact heq.1
    · simp at heq

/-- C8 witness: the concrete malformed-target run. -/
theorem claim_C8_witness :
    (ConnectionManager.connect envBadSsh .ssh initSt).1 = .error .sshIpExtractFailed ∧
    countP Event.isLaunchRdp (ConnectionManager.connect envBadSsh .ssh initSt).2.events = 0 ∧
    countP Event.isLaunchSsh (ConnectionManager.connect envBadSsh .ssh initSt).2.events = 0 ∧
    (∀ h t, Event.evPing h t ∈ (ConnectionManager.connect envBadSsh .ssh initSt).2.events →
      h = envBadSsh.server.rdp) :=
  claim_C8 envBadSsh "nouser-no-at-sign" rfl (by decide) (by decide) (fun _ => rfl)

/-- C6 (confirmed): in Both mode, when the RDP host never answers (so every
retry fails and the RDP session is skipped) but the SSH host answers and the
SSH client launches successfully, `connect` completes without error —
reflecting the SSH outcome — with exactly one `launchSSH` call, no
`launchRDP` call, and exactly one `disconnectVPN` on completion (the Drop).
The retry bound 65 keeps the run clear of the backoff-shift overflow. -/
theorem claim_C6 (env : Env) (sshStr sshIp : String)
    (hconn : env.plat.connectVPN env.server.vpn = .ok ())
    (hstr : env.server.ssh_string = some sshStr)
    (hip : env.server.ssh_ip = some sshIp)
    (hrdp : ∀ t, env.plat.pingHost env.server.rdp t = false)
    (hsship : ∀ t, env.plat.pingHost sshIp t = true)
    (hlaunch : env.plat.startSSH sshStr = .ok ())
    (hsd : ∀ k, env.shutdown k = false)
    (hr1 : 1 ≤ env.settings.ping_retries)
    (hr65 : env.settings.ping_retries ≤ 65) :
    (ConnectionManager.connect_lifetime env .both).1 = .ok () ∧
    countP Event.isLaunchSsh (ConnectionManager.connect_lifetime env .both).2.events = 1 ∧
    countP Event.isLaunchRdp (ConnectionManager.connect_lifetime env .both).2.events = 0 ∧
    countP Event.isDisconnect (ConnectionManager.connect_lifetime env .both).2.events = 1 := by
  -- VPN phase: connectVPN succeeds, the wait runs to some success or timeout
  have hok := ConnectionManager.wait_loop_ok env hsd env.settings.vpn_timeout_secs
    { events := [Event.evConnectVPN env.server.vpn], vpnConnected := true, checks := 1 }
  obtain ⟨wtail, hwa, hwb, hwc⟩ :=
    ConnectionManager.wait_loop_frame env env.settings.vpn_timeout_secs
      { events := [Event.evConnectVPN env.server.vpn], vpnConnected := true, checks := 1 }
  set S1 := (ConnectionManager.wait_loop env env.settings.vpn_timeout_secs
    { events := [Event.evConnectVPN env.server.vpn], vpnConnected := true, checks := 1 }).2
    with hS1def
  simp at hwa hwb
  have hcv2 : ConnectionManager.connect_vpn env initSt = (.ok (), S1) := by
    unfold ConnectionManager.connect_vpn
    simp only [Env.loadShutdown, initSt, hsd, Bool.false_eq_true, if_false, emit, hconn]
    unfold ConnectionManager.wait_for_vpn_connection
    rw [Prod.ext_iff]
    exact ⟨hok, rfl⟩
  -- RDP phase: host unreachable, session skipped
  obtain ⟨rc, sc, hcheq⟩ :
      ∃ a b, ConnectionManager.check_host_reachable env env.server.rdp
        { S1 with checks := S1.checks + 1 } = (a, b) := ⟨_, _, rfl⟩
  have hrc : rc = .ok false := by
    have h2 : (ConnectionManager.check_host_reachable env env.server.rdp
        { S1 with checks := S1.checks + 1 }).1 = .ok false :=
      ConnectionManager.ping_loop_false env env.server.rdp hrdp hsd hr65 _ _ _
    rw [hcheq] at h2
    simpa using h2
  subst hrc
  obtain ⟨rtail, hra, hrb, hrtail⟩ :=
    ConnectionManager.check_host_reachable_frame env env.server.rdp
      { S1 with checks := S1.checks + 1 }
  rw [hcheq] at hra hrb
  simp at hra hrb
  have hrd2 : ConnectionManager.start_rdp env S1 = (.ok none, sc) := by
    unfold ConnectionManager.start_rdp
    simp only [Env.loadShutdown, hsd, Bool.false_eq_true, if_false]
    rw [hcheq]
  -- SSH phase: host answers the first ping, SSH launches
  obtain ⟨r, hrr⟩ : ∃ r, env.settings.ping_retries = r + 1 :=
    ⟨env.settings.ping_retries - 1, by omega⟩
  have hchk2 : ConnectionManager.check_host_reachable env sshIp
      { sc with checks := sc.checks + 1 } =
      (.ok true,
        { sc with
            events := sc.events ++ [Event.evPing sshIp env.settings.ping_timeout_ms]
            checks := sc.checks + 2 }) := by
    unfold ConnectionManager.check_host_reachable
    rw [hrr]
    have h := ConnectionManager.ping_loop_true_first env sshIp r
      { sc with checks := sc.checks + 1 } (hsd _) (hsship _)
    simpa using h
  have hss2 : ConnectionManager.start_ssh env sc =
      (.ok (),
        { sc with
            events := sc.events ++
              [Event.evPing sshIp env.settings.ping_timeout_ms, Event.evLaunchSSH sshStr]
            checks := sc.checks + 2 }) := by
    unfold ConnectionManager.start_ssh
    simp only [Env.loadShutdown, hsd, Bool.false_eq_true, if_false, hstr, hip]
    rw [hchk2]
    simp [emit, hlaunch]
  -- whole connect in Both mode
  have hcboth : ConnectionManager.connect env .both initSt =
      (.ok (),
        { sc with
            events := sc.events ++
              [Event.evPing sshIp env.settings.ping_timeout_ms, Event.evLaunchSSH sshStr]
            checks := sc.checks + 2 }) := by
    unfold ConnectionManager.connect
    rw [hcv2]
    simp [hrd2, hss2]
  -- Drop: vpn_connected is still set, one platform disconnect
  have hvpn : sc.vpnConnected = true := by rw [hrb, hwb]
  have hlt2 : (ConnectionManager.connect_lifetime env .both).2 =
      { sc with
          events := (sc.events ++
            [Event.evPing sshIp env.settings.ping_timeout_ms, Event.evLaunchSSH sshStr]) ++
            [Event.evDisconnectVPN env.server.vpn]
          vpnConnected := false
          checks := sc.checks + 2 } := by
    rw [ConnectionManager.connect_lifetime_snd, hcboth]
    unfold ConnectionManager.disconnect_vpn
    simp [hvpn, emit]
  have h0ssh_w : countP Event.isLaunchSsh wtail = 0 :=
    countP_zero_of_pingSleepOnly (fun _ _ => rfl) (fun _ => rfl) hwc
  have h0ssh_r : countP Event.isLaunchSsh rtail = 0 :=
    countP_zero_of_pingSleepOnly (fun _ _ => rfl) (fun _ => rfl) hrtail
  have h0rdp_w : countP Event.isLaunchRdp wtail = 0 :=
    countP_zero_of_pingSleepOnly (fun _ _ => rfl) (fun _ => rfl) hwc
  have h0rdp_r : countP Event.isLaunchRdp rtail = 0 :=
    countP_zero_of_pingSleepOnly (fun _ _ => rfl) (fun _ => rfl) hrtail
  have h0dis_w : countP Event.isDisconnect wtail = 0 :=
    countP_zero_of_pingSleepOnly (fun _ _ => rfl) (fun _ => rfl) hwc
  have h0dis_r : countP Event.isDisconnect rtail = 0 :=
    countP_zero_of_pingSleepOnly (fun _ _ => rfl) (fun _ => rfl) hrtail
  refine ⟨?_, ?_, ?_, ?_⟩
  · rw [ConnectionManager.connect_lifetime_fst, hcboth]
  · rw [hlt2]
    simp [hra, hwa, countP_append, countP_cons, countP_singleton, countP_nil, h0ssh_w,
      h0ssh_r, Event.isLaunchSsh]
  · rw [hlt2]
    simp [hra, hwa, countP_append, countP_cons, countP_singleton, countP_nil, h0rdp_w,
      h0rdp_r, Event.isLaunchRdp]
  · rw [hlt2]
    simp [hra, hwa, countP_append, countP_cons, countP_singleton, countP_nil, h0dis_w,
      h0dis_r, Event.isDisconnect]

/-- C6 witness: the concrete run where only the SSH host 10.0.0.2 answers. -/
theorem claim_C6_witness :
    (ConnectionManager.connect_lifetime envBoth .both).1 = .ok () ∧
    countP Event.isLaunchSsh (ConnectionManager.connect_lifetime envBoth .both).2.events = 1 ∧
    countP Event.isLaunchRdp (ConnectionManager.connect_lifetime envBoth .both).2.events = 0 ∧
    countP Event.isDisconnect (ConnectionManager.connect_lifetime envBoth .both).2.events = 1 :=
  by
  exact claim_C6 envBoth "user@10.0.0.2" "10.0.0.2" rfl (by decide) (by decide)
    (fun _ => rfl) (fun _ => rfl) rfl (fun _ => rfl) (by decide) (by decide)

end SapIt
